import Mathlib

/-!
Verification of the Snowbridge v2 message-translation core:
the outbound XCM-to-command matcher (`snowbridge-router-primitives-v2`,
`outbound/mod.rs`) and the inbound queue pallet's `submit` extrinsic
(`snowbridge-pallet-inbound-queue-v2`, `lib.rs`), shallowly embedded in Lean.
Machine integers (u64, u128, byte arrays, H160/H256 hashes, token ids) are
modelled as `Nat`; none of the verified properties depend on overflow
behaviour.
-/

namespace Snowbridge

/-- Network identifier, modelling the XCM `NetworkId` enum (only the shape
relevant to the source is kept: the configured Ethereum network, the relay
networks, and a catch-all for any other variant). -/
inductive NetworkId
  | ethereum (chain_id : Nat)
  | polkadot
  | kusama
  | otherNetwork (n : Nat)
  deriving DecidableEq, Repr

/-- Interior location junction, modelling the XCM `Junction` enum.  Only the
variants inspected by the source are distinguished; every other variant is
collapsed into `otherJunction`. -/
inductive Junction
  | accountKey20 (network : Option NetworkId) (key : Nat)
  | parachain (id : Nat)
  | globalConsensus (network : NetworkId)
  | otherJunction (n : Nat)
  deriving DecidableEq, Repr

/-- A relative XCM `Location`: parent count plus interior junctions. -/
structure Location where
  parents : Nat
  interior : List Junction
  deriving DecidableEq, Repr

/-- Fungibility of an asset, modelling XCM `Fungibility`. -/
inductive Fungibility
  | fungible (amount : Nat)
  | nonFungible (inst : Nat)
  deriving DecidableEq, Repr

/-- An XCM `Asset`: an asset id (a `Location`) together with fungibility. -/
structure Asset where
  id : Location
  fungibility : Fungibility
  deriving DecidableEq, Repr

/-- An XCM `AssetFilter`: either a definite list of assets or the wildcard.
`matches` below models the XCM crate's filter matching as used by
`deposit_assets.matches(asset)` in the source. -/
inductive AssetFilter
  | definite (assets : List Asset)
  | wild
  deriving DecidableEq, Repr

/-- Filter matching: a definite filter matches exactly the listed assets, the
wildcard matches everything (modelling `AssetFilter::matches` of the XCM
crate at the use site in the matcher). -/
def AssetFilter.matches : AssetFilter → Asset → Bool
  | .definite assets, a => decide (a ∈ assets)
  | .wild, _ => true

/-- XCM instruction, modelling the `Instruction` enum restricted to the
variants the matcher inspects (`WithdrawAsset`, `ReserveAssetDeposited`,
`ClearOrigin`, `BuyExecution`, `ExpectAsset`, `DepositAsset`, `SetTopic`);
every other instruction kind is collapsed into `otherInst`. -/
inductive Instruction
  | withdrawAsset (assets : List Asset)
  | reserveAssetDeposited (assets : List Asset)
  | clearOrigin
  | buyExecution (fees : Asset) (weight_limit : Nat)
  | expectAsset (assets : List Asset)
  | depositAsset (assets : AssetFilter) (beneficiary : Location)
  | setTopic (id : Nat)
  | otherInst (n : Nat)
  deriving DecidableEq, Repr

/-- The outbound matcher's error enum, mirroring `XcmConverterError` in
`outbound/mod.rs`. -/
inductive XcmConverterError
  | UnexpectedEndOfXcm
  | EndOfXcmMessageExpected
  | WithdrawAssetExpected
  | DepositAssetExpected
  | NoReserveAssets
  | FilterDoesNotConsumeAllAssets
  | TooManyAssets
  | ZeroAssetTransfer
  | BeneficiaryResolutionFailed
  | AssetResolutionFailed
  | InvalidFeeAsset
  | SetTopicExpected
  | ReserveAssetDepositedExpected
  | InvalidAsset
  | UnexpectedInstruction
  | TooManyCommands
  deriving DecidableEq, Repr

/-- Outbound command, mirroring `Command::UnlockNativeToken` and
`Command::MintForeignToken` from `snowbridge_core::outbound_v2`. -/
inductive Command
  | unlockNativeToken (agent_id : Nat) (token : Nat) (recipient : Nat) (amount : Nat)
  | mintForeignToken (token_id : Nat) (recipient : Nat) (amount : Nat)
  deriving DecidableEq, Repr

/-- Outbound message, mirroring `Message` from
`snowbridge_core::outbound_v2`: topic id, origin hash, fee, and a bounded
command sequence (the bound of the `BoundedVec` is `maxCommands`). -/
structure Message where
  id : Nat
  origin : Nat
  fee : Nat
  commands : List Command
  deriving DecidableEq, Repr

/-- Bound of the `BoundedVec` holding `Message.commands`; the exact value is
fixed outside the translated sources, any positive bound gives the same
behaviour for the single-command messages built here. -/
def maxCommands : Nat := 8

/-- Context of the converter: the static parameters of `XcmConverter`
(`ethereum_network`, `agent_id`) together with the two external conversion
collaborators used by the native-token path (`TokenIdOf::convert_location`
and `ConvertAssetId::convert`). -/
structure ConverterCtx where
  ethereum_network : NetworkId
  agent_id : Nat
  tokenIdOf : Location → Option Nat
  convertAssetId : Nat → Option Location

/-- Mirrors `XcmConverter::network_matches`: an absent network matches, a
present one must equal the configured Ethereum network. -/
def networkMatches (ctx : ConverterCtx) : Option NetworkId → Bool
  | some network => decide (network = ctx.ethereum_network)
  | none => true

/-- Beneficiary resolution used in both grammar paths: the beneficiary must
unpack to `(0, [AccountKey20 { network, key }])` with a matching network
(mirrors the `match_expression!` on `beneficiary.unpack()`). -/
def resolveRecipient (ctx : ConverterCtx) (beneficiary : Location) : Option Nat :=
  match beneficiary.parents, beneficiary.interior with
  | 0, [Junction.accountKey20 network key] =>
      if networkMatches ctx network then some key else none
  | _, _ => none

/-- The optional-step skip "check if clear origin exists and skip over it"
(peek followed by a conditional `next`). -/
def skipClearOrigin : List Instruction → List Instruction
  | Instruction.clearOrigin :: rest => rest
  | s => s

/-- The optional-step skip "check if ExpectAsset exists and skip over it"
(peek followed by a conditional `next`). -/
def skipExpectAsset : List Instruction → List Instruction
  | Instruction.expectAsset _ :: rest => rest
  | s => s

/-- Mirrors `XcmConverter::send_tokens_message` (the path taken when the
first instruction is `WithdrawAsset`).  The cursor is modelled by threading
the remaining instruction list; on success the unconsumed tail is returned
alongside the message, mirroring the iterator state left for `convert`'s
end-of-program check. -/
def send_tokens_message (ctx : ConverterCtx) (s0 : List Instruction) :
    Except XcmConverterError (Message × List Instruction) :=
  -- Get the reserve assets from WithdrawAsset.
  match s0 with
  | [] => .error .UnexpectedEndOfXcm
  | i1 :: s1 =>
    match i1 with
    | .withdrawAsset reserve_assets =>
      -- Check if clear origin exists and skip over it.
      -- Extract the fee asset item from BuyExecution.
      match skipClearOrigin s1 with
      | [] => .error .UnexpectedEndOfXcm
      | i3 :: s3 =>
        match i3 with
        | .buyExecution fee_asset _ =>
          match fee_asset.fungibility with
          | .fungible fee_amount =>
            -- Check if ExpectAsset exists and skip over it.
            match skipExpectAsset s3 with
            | [] => .error .UnexpectedEndOfXcm
            | i5 :: s5 =>
              match i5 with
              | .depositAsset deposit_assets beneficiary =>
                -- Assert that the beneficiary is AccountKey20.
                match resolveRecipient ctx beneficiary with
                | none => .error .BeneficiaryResolutionFailed
                | some recipient =>
                  -- Make sure there are reserved assets.
                  if reserve_assets.length = 0 then .error .NoReserveAssets
                  -- Check that the deposit asset filter matches what was reserved.
                  else if reserve_assets.any
                      (fun asset => !(deposit_assets.matches asset)) then
                    .error .FilterDoesNotConsumeAllAssets
                  -- We only support a single asset at a time.
                  else if reserve_assets.length = 1 then
                    match reserve_assets with
                    | [] => .error .AssetResolutionFailed
                    | reserve_asset :: _ =>
                      match reserve_asset with
                      | ⟨inner_location, .fungible amount⟩ =>
                        match inner_location.parents, inner_location.interior with
                        | 0, [Junction.accountKey20 network key] =>
                          if networkMatches ctx network then
                            -- Transfer amount must be greater than 0.
                            if 0 < amount then
                              match s5 with
                              | [] => .error .UnexpectedEndOfXcm
                              | i6 :: s6 =>
                                match i6 with
                                | .setTopic topic_id =>
                                  if [Command.unlockNativeToken ctx.agent_id key
                                        recipient amount].length ≤ maxCommands then
                                    .ok ({ id := topic_id, origin := 0,
                                           fee := fee_amount,
                                           commands :=
                                             [Command.unlockNativeToken ctx.agent_id
                                               key recipient amount] }, s6)
                                  else .error .TooManyCommands
                                | _ => .error .SetTopicExpected
                            else .error .ZeroAssetTransfer
                          else .error .AssetResolutionFailed
                        | _, _ => .error .AssetResolutionFailed
                      | _ => .error .AssetResolutionFailed
                  else .error .TooManyAssets
              | _ => .error .DepositAssetExpected
          | _ => .error .AssetResolutionFailed
        | _ => .error .InvalidFeeAsset
    | _ => .error .WithdrawAssetExpected

/-- Mirrors `XcmConverter::send_native_tokens_message` (the path taken when
the first instruction is `ReserveAssetDeposited`).  Unlike
`send_tokens_message` there is no optional `ExpectAsset` skip after
`BuyExecution`, and reserved-asset resolution goes through the token-id
round trip. -/
def send_native_tokens_message (ctx : ConverterCtx) (s0 : List Instruction) :
    Except XcmConverterError (Message × List Instruction) :=
  -- Get the reserve assets.
  match s0 with
  | [] => .error .UnexpectedEndOfXcm
  | i1 :: s1 =>
    match i1 with
    | .reserveAssetDeposited reserve_assets =>
      -- Check if clear origin exists and skip over it.
      -- Extract the fee asset item from BuyExecution.
      match skipClearOrigin s1 with
      | [] => .error .UnexpectedEndOfXcm
      | i3 :: s3 =>
        match i3 with
        | .buyExecution fee_asset _ =>
          match fee_asset.fungibility with
          | .fungible fee_amount =>
            match s3 with
            | [] => .error .UnexpectedEndOfXcm
            | i5 :: s5 =>
              match i5 with
              | .depositAsset deposit_assets beneficiary =>
                -- Assert that the beneficiary is AccountKey20.
                match resolveRecipient ctx beneficiary with
                | none => .error .BeneficiaryResolutionFailed
                | some recipient =>
                  -- Make sure there are reserved assets.
                  if reserve_assets.length = 0 then .error .NoReserveAssets
                  -- Check that the deposit asset filter matches what was reserved.
                  else if reserve_assets.any
                      (fun asset => !(deposit_assets.matches asset)) then
                    .error .FilterDoesNotConsumeAllAssets
                  -- We only support a single asset at a time.
                  else if reserve_assets.length = 1 then
                    match reserve_assets with
                    | [] => .error .AssetResolutionFailed
                    | reserve_asset :: _ =>
                      match reserve_asset with
                      | ⟨asset_id, .fungible amount⟩ =>
                        -- Transfer amount must be greater than 0.
                        if 0 < amount then
                          match ctx.tokenIdOf asset_id with
                          | none => .error .InvalidAsset
                          | some token_id =>
                            match ctx.convertAssetId token_id with
                            | none => .error .InvalidAsset
                            | some expected_asset_id =>
                              if asset_id = expected_asset_id then
                                match s5 with
                                | [] => .error .UnexpectedEndOfXcm
                                | i6 :: s6 =>
                                  match i6 with
                                  | .setTopic topic_id =>
                                    if [Command.mintForeignToken token_id recipient
                                          amount].length ≤ maxCommands then
                                      .ok ({ id := topic_id, origin := 0,
                                             fee := fee_amount,
                                             commands :=
                                               [Command.mintForeignToken token_id
                                                 recipient amount] }, s6)
                                    else .error .TooManyCommands
                                  | _ => .error .SetTopicExpected
                              else .error .InvalidAsset
                        else .error .ZeroAssetTransfer
                      | _ => .error .AssetResolutionFailed
                  else .error .TooManyAssets
              | _ => .error .DepositAssetExpected
          | _ => .error .AssetResolutionFailed
        | _ => .error .InvalidFeeAsset
    | _ => .error .ReserveAssetDepositedExpected

/-- Mirrors `XcmConverter::convert`: peek at the first instruction to select
the grammar path, then require that the path consumed the whole program
(`EndOfXcmMessageExpected` on a non-empty tail). -/
def convert (ctx : ConverterCtx) (insts : List Instruction) :
    Except XcmConverterError Message :=
  match insts with
  | [] => .error .UnexpectedEndOfXcm
  | Instruction.reserveAssetDeposited _ :: _ =>
    match send_native_tokens_message ctx insts with
    | .error e => .error e
    | .ok (result, rest) =>
      -- All xcm instructions must be consumed before exit.
      if rest.isEmpty then .ok result else .error .EndOfXcmMessageExpected
  | Instruction.withdrawAsset _ :: _ =>
    match send_tokens_message ctx insts with
    | .error e => .error e
    | .ok (result, rest) =>
      if rest.isEmpty then .ok result else .error .EndOfXcmMessageExpected
  | _ :: _ => .error .UnexpectedInstruction

/-- XCM transport-layer `SendError` as used by the exporter (`SendResult`). -/
inductive SendError
  | NotApplicable
  | Unroutable
  | Transport (msg : String)
  | DestinationUnsupported
  | ExceedsMaxMessageSize
  | MissingArgument
  | Fees
  deriving DecidableEq, Repr

/-- Mirrors `InteriorLocation::split_global` of the XCM crate at the use
site: split a leading `GlobalConsensus` junction off an interior location,
failing when the location does not start with one. -/
def splitGlobal : List Junction → Option (NetworkId × List Junction)
  | Junction.globalConsensus network :: rest => some (network, rest)
  | _ => none

/-- Mirrors `InteriorLocation::global_consensus` of the XCM crate at the use
site: the network of a leading `GlobalConsensus` junction, if any. -/
def globalConsensusOf : List Junction → Option NetworkId
  | Junction.globalConsensus network :: _ => some network
  | _ => none

/-- The exporter's pre-scan over the instruction sequence (the
`match_next_inst_while` workaround in `validate`): returns `Except.error ()`
as soon as an `ExpectAsset` instruction is found (`ProcessMessageError::
Unsupported`), `Except.ok ()` if the whole sequence is free of them. -/
def prescanExpectAsset : List Instruction → Except Unit Unit
  | [] => .ok ()
  | Instruction.expectAsset _ :: _ => .error ()
  | _ :: rest => prescanExpectAsset rest

/-- Static context of `EthereumBlobExporter`: the `UniversalLocation` and
`EthereumNetwork` parameters, the agent hasher
(`AgentHashedDescription::convert_location`), the outbound queue's
`validate` step (returning an already-encoded ticket and a total fee), and
the asset-id conversion collaborators forwarded to the converter. -/
structure ExporterCtx where
  universal_location : List Junction
  ethereum_network : NetworkId
  agent_of : Location → Option Nat
  queue_validate : Message → Option (List Nat × Nat)
  tokenIdOf : Location → Option Nat
  convertAssetId : Nat → Option Location

/-- Result record of `validate`: the `SendResult` together with the final
values of the three caller-provided `&mut Option` parameters, so that the
frame effect of the call on them is part of the model.  The source only ever
reads those parameters through `clone()`, so every return site below passes
them through unchanged. -/
structure ValidateOut where
  result : Except SendError ((List Nat × Nat) × (Location × Nat))
  universal_source : Option (List Junction)
  destination : Option (List Junction)
  message : Option (List Instruction)

/-- Mirrors `EthereumBlobExporter::validate`.  The ticket is `(encoded
ticket bytes, message id)`; the fee is returned as the pair `(parent
location, total fee)` standing for `Asset::from((Location::parent(),
fee.total()))`. -/
def validateFull (ctx : ExporterCtx) (network : NetworkId) (_channel : Nat)
    (universal_source : Option (List Junction))
    (destination : Option (List Junction))
    (message : Option (List Instruction)) : ValidateOut :=
  let ret : Except SendError ((List Nat × Nat) × (Location × Nat)) → ValidateOut :=
    fun r => ⟨r, universal_source, destination, message⟩
  if network ≠ ctx.ethereum_network then ret (.error .NotApplicable)
  else
    -- Cloning destination to avoid modifying the value.
    match destination with
    | none => ret (.error .MissingArgument)
    | some dest =>
      if dest ≠ ([] : List Junction) then ret (.error .NotApplicable)
      else
        -- Cloning universal_source to avoid modifying the value.
        match universal_source with
        | none => ret (.error .MissingArgument)
        | some src =>
          match splitGlobal src with
          | none => ret (.error .NotApplicable)
          | some (local_net, local_sub) =>
            if some local_net ≠ globalConsensusOf ctx.universal_location then
              ret (.error .NotApplicable)
            else
              match local_sub with
              | [Junction.parachain _para_id] =>
                let source_location : Location := ⟨1, local_sub⟩
                match ctx.agent_of source_location with
                | none => ret (.error .NotApplicable)
                | some agent_id =>
                  match message with
                  | none => ret (.error .MissingArgument)
                  | some msg =>
                    -- A workaround to inspect ExpectAsset as V2 message:
                    -- continue only when the scan errored out on one.
                    match prescanExpectAsset msg with
                    | .ok () => ret (.error .NotApplicable)
                    | .error () =>
                      let cctx : ConverterCtx :=
                        ⟨ctx.ethereum_network, agent_id, ctx.tokenIdOf,
                          ctx.convertAssetId⟩
                      match convert cctx msg with
                      | .error _ => ret (.error .Unroutable)
                      | .ok outMsg =>
                        match ctx.queue_validate outMsg with
                        | none => ret (.error .Unroutable)
                        | some (ticket, fee) =>
                          ret (.ok ((ticket, outMsg.id), (⟨1, []⟩, fee)))
              | _ => ret (.error .NotApplicable)

/-- The `SendResult` component of `validate`. -/
def validate (ctx : ExporterCtx) (network : NetworkId) (channel : Nat)
    (universal_source : Option (List Junction))
    (destination : Option (List Junction))
    (message : Option (List Instruction)) :
    Except SendError ((List Nat × Nat) × (Location × Nat)) :=
  (validateFull ctx network channel universal_source destination message).result

/-- Mirrors `EthereumBlobExporter::deliver`, generic in the queue's ticket
type `Q`: decode the encoded ticket bytes (failure is `NotApplicable`), hand
the ticket to `OutboundQueue::deliver` (failure is mapped to
`Transport("other transport error")`), and return the delivered message id. -/
def deliver {Q : Type} (ticket_decode : List Nat → Option Q)
    (queue_deliver : Q → Option Nat) (blob : List Nat × Nat) :
    Except SendError Nat :=
  match ticket_decode blob.1 with
  | none => .error .NotApplicable
  | some ticket =>
    match queue_deliver ticket with
    | none => .error (.Transport "other transport error")
    | some message_id => .ok message_id

/-- Transport error of the XCM send primitive (`XcmpSendError` in the
inbound pallet, i.e. `xcm::SendError`). -/
inductive XcmpSendError
  | NotApplicable
  | Unroutable
  | Transport (msg : String)
  | DestinationUnsupported
  | ExceedsMaxMessageSize
  | MissingArgument
  | Fees
  deriving DecidableEq, Repr

/-- The pallet-local `SendError` enum of the inbound queue pallet. -/
inductive PalletSendError
  | NotApplicable
  | NotRoutable
  | Transport
  | DestinationUnsupported
  | ExceedsMaxMessageSize
  | MissingArgument
  | Fees
  deriving DecidableEq, Repr

/-- Mirrors `impl From<XcmpSendError> for Error<T>` (restricted to the
`SendError` payload): the exhaustive mapping from transport error kinds to
the pallet-local kinds. -/
def mapSendError : XcmpSendError → PalletSendError
  | .NotApplicable => .NotApplicable
  | .Unroutable => .NotRoutable
  | .Transport _ => .Transport
  | .DestinationUnsupported => .DestinationUnsupported
  | .ExceedsMaxMessageSize => .ExceedsMaxMessageSize
  | .MissingArgument => .MissingArgument
  | .Fees => .Fees

/-- The inbound pallet's `Error<T>` enum, plus `BadOrigin` for the
`ensure_signed` failure of the extrinsic (a `DispatchError`, not a pallet
error, but a possible error outcome of `submit`). -/
inductive InboundError
  | InvalidGateway
  | InvalidEnvelope
  | InvalidNonce
  | InvalidPayload
  | InvalidChannel
  | MaxNonceReached
  | InvalidAccountConversion
  | Halted
  | Verification (kind : Nat)
  | Send (kind : PalletSendError)
  | BadOrigin
  deriving DecidableEq, Repr

/-- Decoded `Envelope` (gateway address, nonce, opaque payload bytes). -/
structure Envelope where
  gateway : Nat
  nonce : Nat
  payload : List Nat
  deriving DecidableEq, Repr

/-- The inbound `Message` argument of `submit`: an event log and a proof,
both opaque to the pallet and modelled as numbers handed to collaborators. -/
structure InMessage where
  event_log : Nat
  proof : Nat
  deriving DecidableEq, Repr

/-- Decoded router-primitives `Message` (called `MessageV2` in the pallet):
a fee and the encoded XCM bytes. -/
structure MessageV2 where
  fee : Nat
  xcm : List Nat
  deriving DecidableEq, Repr

/-- Persistent pallet state: the `Nonce` storage map (the set of consumed
nonces, membership standing for `contains_key`) and the `OperatingMode`
storage value (`true` = halted). -/
structure PalletState where
  nonceConsumed : List Nat
  halted : Bool
  deriving DecidableEq, Repr

/-- Membership in the `Nonce` storage map (`Nonce::contains_key`). -/
def PalletState.consumed (st : PalletState) (n : Nat) : Bool :=
  decide (n ∈ st.nonceConsumed)

/-- The `Nonce::try_mutate` call of `submit`: set the flag for the nonce to
`true`, i.e. insert it into the consumed set (the closure always returns
`Ok`). -/
def PalletState.consume (st : PalletState) (n : Nat) : PalletState :=
  { st with nonceConsumed := n :: st.nonceConsumed }

/-- `MessageReceived` event payload. -/
structure EventMessageReceived where
  nonce : Nat
  message_id : Nat
  deriving DecidableEq, Repr

/-- External collaborators of the inbound pipeline: the `Verifier`, the
envelope codec (`Envelope::try_from`), the configured gateway address, the
payload codec (`MessageV2::decode_all`), the depth-limited versioned-XCM
decoder plus version conversion (`VersionedXcm::decode_with_depth_limit`
followed by `try_into`, both failures surfacing as `InvalidPayload`), and
the transport (`send_xcm::<T::XcmSender>`, returning a message id and a
cost).  Decoded XCM programs are opaque at this layer and modelled as
numbers. -/
structure InboundCtx where
  verify : Nat → Nat → Except Nat Unit
  envelopeTryFrom : Nat → Option Envelope
  gatewayAddress : Nat
  decodePayload : List Nat → Option MessageV2
  decodeVersionedXcm : List Nat → Option Nat
  versionedToXcm : Nat → Option Nat
  sendXcm : Location → Nat → Except XcmpSendError (Nat × Nat)

/-- The fixed forwarding destination of the pallet:
`Location::new(1, [Parachain(1000)])`. -/
def inboundDest : Location := ⟨1, [Junction.parachain 1000]⟩

/-- Mirrors the body of `Pallet::submit` with storage passed explicitly.
Storage writes are applied in program order, so the returned state of an
error outcome is the state as mutated up to the failure point (the raw
storage-overlay semantics before transactional dispatch is applied); the
event is the one deposited on success. -/
def submit_body (ctx : InboundCtx) (st : PalletState) (origin_signed : Bool)
    (msg : InMessage) :
    Except InboundError (PalletState × EventMessageReceived) × PalletState :=
  if !origin_signed then (.error .BadOrigin, st)
  else if st.halted then (.error .Halted, st)
  else
    -- Submit message to verifier for verification.
    match ctx.verify msg.event_log msg.proof with
    | .error e => (.error (.Verification e), st)
    | .ok () =>
      -- Decode event log into an Envelope.
      match ctx.envelopeTryFrom msg.event_log with
      | none => (.error .InvalidEnvelope, st)
      | some envelope =>
        -- Verify that the message was submitted from the known Gateway.
        if ctx.gatewayAddress ≠ envelope.gateway then (.error .InvalidGateway, st)
        -- Verify the message has not been processed.
        else if st.consumed envelope.nonce then (.error .InvalidNonce, st)
        else
          -- Decode payload into `MessageV2`.
          match ctx.decodePayload envelope.payload with
          | none => (.error .InvalidPayload, st)
          | some message =>
            -- Decode xcm.
            match ctx.decodeVersionedXcm message.xcm with
            | none => (.error .InvalidPayload, st)
            | some versioned_xcm =>
              match ctx.versionedToXcm versioned_xcm with
              | none => (.error .InvalidPayload, st)
              | some xcm =>
                -- Set nonce flag to true.
                let st1 := st.consume envelope.nonce
                -- Attempt to forward XCM to AH.
                match ctx.sendXcm inboundDest xcm with
                | .error e => (.error (.Send (mapSendError e)), st1)
                | .ok (message_id, _cost) =>
                  (.ok (st1, ⟨envelope.nonce, message_id⟩), st1)

/-- Modelled from the spec: FRAME's transactional extrinsic dispatch, which
is not part of the translated sources.  Steps 1-10 of the inbound pipeline
run inside one all-or-nothing transaction: when the body returns an error,
every storage mutation performed so far in the call is reverted and the
pre-call state is kept; only a successful body commits its final state.
The emitted events are returned alongside (one `MessageReceived` on
success, none on failure). -/
def submit (ctx : InboundCtx) (st : PalletState) (origin_signed : Bool)
    (msg : InMessage) :
    Except InboundError Unit × PalletState × List EventMessageReceived :=
  match submit_body ctx st origin_signed msg with
  | (.ok (st', ev), _) => (.ok (), st', [ev])
  | (.error e, _) => (.error e, st, [])

/-- Amount carried by a command (the `amount` field of either variant). -/
def Command.amount : Command → Nat
  | .unlockNativeToken _ _ _ a => a
  | .mintForeignToken _ _ a => a

/-! Concrete fixtures used to instantiate the theorems below on explicit
inputs: a converter context, an exporter context, assets, locations and
instruction programs. -/

/-- An ERC-20 style asset location: `(0, [AccountKey20 key 11])`. -/
def tokenLoc : Location := ⟨0, [Junction.accountKey20 none 11]⟩

/-- A Polkadot-native asset location: `(1, [Parachain 1000])`. -/
def nativeLoc : Location := ⟨1, [Junction.parachain 1000]⟩

/-- A beneficiary resolving to the 20-byte account key 205. -/
def benLoc : Location := ⟨0, [Junction.accountKey20 none 205]⟩

/-- A fungible fee asset of amount 10. -/
def feeAsset0 : Asset := ⟨⟨1, []⟩, .fungible 10⟩

/-- A fungible Ethereum-side asset of amount 100 at `tokenLoc`. -/
def wethAsset : Asset := ⟨tokenLoc, .fungible 100⟩

/-- A fungible Polkadot-native asset of amount 50 at `nativeLoc`. -/
def dotAsset : Asset := ⟨nativeLoc, .fungible 50⟩

/-- A concrete converter context: Ethereum chain id 1, agent id 42, and an
asset-id equivalence whose round trip maps every location to token id 7 and
token id 7 back to `nativeLoc`. -/
def cctx0 : ConverterCtx :=
  ⟨NetworkId.ethereum 1, 42, fun _ => some 7, fun _ => some nativeLoc⟩

/-- Well-formed withdraw-path program (no `ExpectAsset`). -/
def progWithdrawHappy : List Instruction :=
  [.withdrawAsset [wethAsset], .clearOrigin, .buyExecution feeAsset0 0,
   .depositAsset .wild benLoc, .setTopic 9]

/-- Well-formed withdraw-path program with the optional `ExpectAsset` after
`BuyExecution`. -/
def progWithdrawExpect : List Instruction :=
  [.withdrawAsset [wethAsset], .clearOrigin, .buyExecution feeAsset0 0,
   .expectAsset [], .depositAsset .wild benLoc, .setTopic 9]

/-- Well-formed native-token-path program (no `ExpectAsset`). -/
def progNativeHappy : List Instruction :=
  [.reserveAssetDeposited [dotAsset], .clearOrigin, .buyExecution feeAsset0 0,
   .depositAsset .wild benLoc, .setTopic 9]

/-- Native-token-path program with an `ExpectAsset` inserted after
`BuyExecution` (the position the spec calls optional on this path). -/
def progNativeExpect : List Instruction :=
  [.reserveAssetDeposited [dotAsset], .clearOrigin, .buyExecution feeAsset0 0,
   .expectAsset [], .depositAsset .wild benLoc, .setTopic 9]

/-- Well-formed withdraw-path program followed by a trailing instruction. -/
def progTrailing : List Instruction :=
  [.withdrawAsset [wethAsset], .buyExecution feeAsset0 0,
   .depositAsset .wild benLoc, .setTopic 9, .clearOrigin]

/-- Withdraw-path program whose reserved-asset set is empty. -/
def progZeroAssets : List Instruction :=
  [.withdrawAsset [], .buyExecution feeAsset0 0,
   .depositAsset .wild benLoc, .setTopic 9]

/-- Withdraw-path program with two reserved assets and a definite deposit
filter listing only the first of them. -/
def progTwoAssetsDefinite : List Instruction :=
  [.withdrawAsset [wethAsset, dotAsset], .buyExecution feeAsset0 0,
   .depositAsset (.definite [wethAsset]) benLoc, .setTopic 9]

/-- Withdraw-path program with two reserved assets and the wildcard filter. -/
def progTwoAssetsWild : List Instruction :=
  [.withdrawAsset [wethAsset, dotAsset], .buyExecution feeAsset0 0,
   .depositAsset .wild benLoc, .setTopic 9]

/-- Withdraw-path program whose single reserved asset has amount 0. -/
def progZeroAmount : List Instruction :=
  [.withdrawAsset [⟨tokenLoc, .fungible 0⟩], .buyExecution feeAsset0 0,
   .depositAsset .wild benLoc, .setTopic 9]

/-- Native-path program whose single reserved asset has amount 0. -/
def progZeroAmountNative : List Instruction :=
  [.reserveAssetDeposited [⟨nativeLoc, .fungible 0⟩], .buyExecution feeAsset0 0,
   .depositAsset .wild benLoc, .setTopic 9]

/-- The message produced by `convert` on `progNativeHappy` under `cctx0`. -/
def msgNativeVal : Message := ⟨9, 0, 10, [Command.mintForeignToken 7 205 50]⟩

/-- The message produced by `convert` on `progWithdrawHappy` under `cctx0`. -/
def msgWithdrawVal : Message := ⟨9, 0, 10, [Command.unlockNativeToken 42 11 205 100]⟩

/-- A concrete universal source `[GlobalConsensus(Polkadot), Parachain(1000)]`. -/
def usrc0 : List Junction := [Junction.globalConsensus NetworkId.polkadot, Junction.parachain 1000]

/-- A concrete exporter context: universal location under Polkadot, Ethereum
chain id 1, an agent hasher returning 42, a queue quoting fee 3 whose
encoded ticket is the singleton of the message id, and the asset-id
equivalence of `cctx0`. -/
def ectx0 : ExporterCtx :=
  ⟨usrc0, NetworkId.ethereum 1, fun _ => some 42,
   fun m => some ([m.id], 3), fun _ => some 7, fun _ => some nativeLoc⟩

/-- A ticket decoder that always succeeds (for `deliver`). -/
def decodeAlways : List Nat → Option Unit := fun _ => some ()

/-- A ticket decoder that always fails (an undecodable ticket). -/
def decodeNever : List Nat → Option Unit := fun _ => none

/-- A queue `deliver` that rejects every ticket, as it does for a reused or
already-delivered ticket. -/
def queueRejectAll : Unit → Option Nat := fun _ => none

/-- A queue `deliver` that accepts every ticket with message id 3. -/
def queueAcceptAll : Unit → Option Nat := fun _ => some 3

/-- A concrete inbound envelope: gateway 77, nonce 5, payload `[1, 2]`. -/
def env0 : Envelope := ⟨77, 5, [1, 2]⟩

/-- A concrete inbound context whose collaborators all succeed: gateway 77,
every event log decoding to `env0`, and a transport accepting with message
id 9. -/
def ictx0 : InboundCtx :=
  ⟨fun _ _ => .ok (), fun _ => some env0, 77, fun _ => some ⟨4, [3]⟩,
   fun _ => some 1, fun _ => some 2, fun _ _ => .ok (9, 0)⟩

/-- `ictx0` with a transport that always fails. -/
def ictxSendFail : InboundCtx :=
  { ictx0 with sendXcm := fun _ _ => .error (.Transport "down") }

/-- Initial pallet state: no nonce consumed, not halted. -/
def ist0 : PalletState := ⟨[], false⟩

/-- Pallet state in which nonce 5 is already consumed. -/
def istConsumed : PalletState := ⟨[5], false⟩

/-- A concrete submission. -/
def imsg0 : InMessage := ⟨0, 0⟩

/-! Helper lemmas: inversion principles for the two grammar paths and for
`convert`, shared by several of the claim theorems below. -/

/-- Inversion for a successful withdraw-path match: the program opened with
`WithdrawAsset`, the reserved-asset set had exactly one element, the
transferred amount was positive, and the produced message carries exactly
one `UnlockNativeToken` command. -/
theorem send_tokens_message_ok_inv (ctx : ConverterCtx) (s : List Instruction)
    (msg : Message) (rest : List Instruction)
    (h : send_tokens_message ctx s = .ok (msg, rest)) :
    ∃ assets tail token recipient amount topic fee_amount,
      s = Instruction.withdrawAsset assets :: tail ∧
      assets.length = 1 ∧ 0 < amount ∧
      msg = ⟨topic, 0, fee_amount,
        [Command.unlockNativeToken ctx.agent_id token recipient amount]⟩ := by
  unfold send_tokens_message at h
  repeat' (first | exact Except.noConfusion h | split at h)
  injection h with h2
  injection h2 with hmsg hrest
  exact ⟨_, _, _, _, _, _, _, rfl, ‹_›, ‹_›, hmsg.symm⟩

/-- Inversion for a successful native-token-path match: the program opened
with `ReserveAssetDeposited`, the reserved-asset set had exactly one
element, the transferred amount was positive, and the produced message
carries exactly one `MintForeignToken` command. -/
theorem send_native_tokens_message_ok_inv (ctx : ConverterCtx)
    (s : List Instruction) (msg : Message) (rest : List Instruction)
    (h : send_native_tokens_message ctx s = .ok (msg, rest)) :
    ∃ assets tail token_id recipient amount topic fee_amount,
      s = Instruction.reserveAssetDeposited assets :: tail ∧
      assets.length = 1 ∧ 0 < amount ∧
      msg = ⟨topic, 0, fee_amount,
        [Command.mintForeignToken token_id recipient amount]⟩ := by
  unfold send_native_tokens_message at h
  repeat' (first | exact Except.noConfusion h | split at h)
  injection h with h2
  injection h2 with hmsg hrest
  exact ⟨_, _, _, _, _, _, _, rfl, ‹_›, ‹_›, hmsg.symm⟩

/-- Inversion for a successful `convert`: one of the two path functions
succeeded on the full program and left an empty tail. -/
theorem convert_ok_inv (ctx : ConverterCtx) (insts : List Instruction)
    (msg : Message) (h : convert ctx insts = .ok msg) :
    (∃ assets tail, insts = Instruction.withdrawAsset assets :: tail ∧
       send_tokens_message ctx insts = .ok (msg, [])) ∨
    (∃ assets tail, insts = Instruction.reserveAssetDeposited assets :: tail ∧
       send_native_tokens_message ctx insts = .ok (msg, [])) := by
  unfold convert at h
  repeat' (first | exact Except.noConfusion h | split at h)
  all_goals injection h with h2
  all_goals subst h2
  all_goals
    first
    | exact Or.inl ⟨_, _, rfl, by simp_all [List.isEmpty_iff]⟩
    | exact Or.inr ⟨_, _, rfl, by simp_all [List.isEmpty_iff]⟩

/-- C3: on both grammar paths, if the path's grammar completes with a
non-empty tail of unconsumed instructions, `convert` rejects the program
with `EndOfXcmMessageExpected` and produces no message. -/
theorem convert_rejects_nonempty_tail (ctx : ConverterCtx)
    (insts : List Instruction) (msg : Message) (rest : List Instruction)
    (h : (∃ assets tail, insts = Instruction.reserveAssetDeposited assets :: tail ∧
            send_native_tokens_message ctx insts = .ok (msg, rest)) ∨
         (∃ assets tail, insts = Instruction.withdrawAsset assets :: tail ∧
            send_tokens_message ctx insts = .ok (msg, rest)))
    (hne : rest ≠ []) :
    convert ctx insts = .error .EndOfXcmMessageExpected := by
  rcases h with ⟨assets, tail, rfl, hs⟩ | ⟨assets, tail, rfl, hs⟩ <;>
    simp [convert, hs, hne]

/-- Witness for C3 at a concrete input: a well-formed withdraw-path program
with a trailing `ClearOrigin` is rejected with `EndOfXcmMessageExpected`. -/
theorem convert_rejects_nonempty_tail_witness :
    convert cctx0 progTrailing = .error .EndOfXcmMessageExpected :=
  convert_rejects_nonempty_tail cctx0 progTrailing msgWithdrawVal
    [Instruction.clearOrigin]
    (Or.inr ⟨[wethAsset], _, rfl, by rfl⟩) (by decide)

/-- Counterexample to C4: on the native-token path (opened by
`ReserveAssetDeposited`) an `ExpectAsset` after `BuyExecution` is not an
optional step that gets consumed — the very same program without it
matches, while with it the matcher fails with `DepositAssetExpected`. -/
theorem native_path_expect_asset_counterexample :
    convert cctx0 progNativeExpect = .error .DepositAssetExpected ∧
    convert cctx0 progNativeHappy = .ok msgNativeVal := by
  exact ⟨by rfl, by rfl⟩

/-- C4 as amended: the optional `ExpectAsset` step after the mandatory
`BuyExecution` belongs to the foreign/local-token path (opened by
`WithdrawAsset`), where it is consumed if present and skipped without error
if absent; the native-token path (opened by `ReserveAssetDeposited`) has no
such optional step — an `ExpectAsset` there makes the mandatory deposit
step fail with `DepositAssetExpected`. -/
theorem withdraw_path_optional_expect_asset :
    (∀ (ctx : ConverterCtx) (assets : List Asset) (fee : Asset)
        (w : Nat) (ea : List Asset) (filt : AssetFilter) (ben : Location)
        (rest : List Instruction),
      send_tokens_message ctx
          (Instruction.withdrawAsset assets :: Instruction.buyExecution fee w ::
            Instruction.expectAsset ea ::
            Instruction.depositAsset filt ben :: rest) =
        send_tokens_message ctx
          (Instruction.withdrawAsset assets :: Instruction.buyExecution fee w ::
            Instruction.depositAsset filt ben :: rest)) ∧
    (∀ (ctx : ConverterCtx) (assets : List Asset) (floc : Location)
        (fa w : Nat) (ea : List Asset) (rest : List Instruction),
      send_native_tokens_message ctx
          (Instruction.reserveAssetDeposited assets ::
            Instruction.buyExecution ⟨floc, .fungible fa⟩ w ::
            Instruction.expectAsset ea :: rest) =
        .error .DepositAssetExpected) := by
  constructor
  · intro ctx assets fee w ea filt ben rest
    rcases fee with ⟨fid, ffun⟩
    cases ffun <;> rfl
  · intro ctx assets floc fa w ea rest
    rfl

/-- C5: grammar selection is decided by the first instruction.  A program
opening with `ReserveAssetDeposited` that converts successfully yields
exactly one `MintForeignToken` command; one opening with `WithdrawAsset`
yields exactly one `UnlockNativeToken` command; a non-empty program opening
with any other instruction is rejected with `UnexpectedInstruction`. -/
theorem convert_grammar_selection (ctx : ConverterCtx)
    (insts : List Instruction) :
    (∀ (assets : List Asset) (tail : List Instruction) (msg : Message),
        insts = Instruction.reserveAssetDeposited assets :: tail →
        convert ctx insts = .ok msg →
        ∃ token_id recipient amount,
          msg.commands = [Command.mintForeignToken token_id recipient amount]) ∧
    (∀ (assets : List Asset) (tail : List Instruction) (msg : Message),
        insts = Instruction.withdrawAsset assets :: tail →
        convert ctx insts = .ok msg →
        ∃ token recipient amount,
          msg.commands =
            [Command.unlockNativeToken ctx.agent_id token recipient amount]) ∧
    (insts ≠ [] →
      (∀ assets tail, insts ≠ Instruction.reserveAssetDeposited assets :: tail) →
      (∀ assets tail, insts ≠ Instruction.withdrawAsset assets :: tail) →
      convert ctx insts = .error .UnexpectedInstruction) := by
  refine ⟨?_, ?_, ?_⟩
  · intro assets tail msg hshape hok
    rcases convert_ok_inv ctx insts msg hok with ⟨a, t, heq, _⟩ | ⟨a, t, heq, hs⟩
    · rw [hshape] at heq; exact absurd heq (by simp)
    · obtain ⟨_, _, tid, recipient, amount, topic, fee, _, _, _, hmsg⟩ :=
        send_native_tokens_message_ok_inv ctx insts msg [] hs
      exact ⟨tid, recipient, amount, by rw [hmsg]⟩
  · intro assets tail msg hshape hok
    rcases convert_ok_inv ctx insts msg hok with ⟨a, t, heq, hs⟩ | ⟨a, t, heq, _⟩
    · obtain ⟨_, _, token, recipient, amount, topic, fee, _, _, _, hmsg⟩ :=
        send_tokens_message_ok_inv ctx insts msg [] hs
      exact ⟨token, recipient, amount, by rw [hmsg]⟩
    · rw [hshape] at heq; exact absurd heq (by simp)
  · intro hne h1 h2
    rcases insts with _ | ⟨i, t⟩
    · exact absurd rfl hne
    · cases i
      case withdrawAsset a => exact absurd rfl (h2 a t)
      case reserveAssetDeposited a => exact absurd rfl (h1 a t)
      all_goals rfl

/-- Witness for C5 at concrete inputs: the native-token fixture yields a
single `MintForeignToken`, the withdraw fixture a single
`UnlockNativeToken`, and a program opening with `ClearOrigin` is rejected
with `UnexpectedInstruction`. -/
theorem convert_grammar_selection_witness :
    (∃ token_id recipient amount,
      msgNativeVal.commands = [Command.mintForeignToken token_id recipient amount]) ∧
    (∃ token recipient amount,
      msgWithdrawVal.commands =
        [Command.unlockNativeToken cctx0.agent_id token recipient amount]) ∧
    convert cctx0 [Instruction.clearOrigin] = .error .UnexpectedInstruction :=
  ⟨(convert_grammar_selection cctx0 progNativeHappy).1 [dotAsset] _
      msgNativeVal rfl (by rfl),
   (convert_grammar_selection cctx0 progWithdrawHappy).2.1 [wethAsset] _
      msgWithdrawVal rfl (by rfl),
   (convert_grammar_selection cctx0 [Instruction.clearOrigin]).2.2
      (by decide) (by intro a t h; cases h) (by intro a t h; cases h)⟩

/-- Counterexample to C6: a matcher input with two reserved assets is not
always rejected with `TooManyAssets` — when the definite deposit filter
fails to cover one of them, the earlier filter check fires first and the
error is `FilterDoesNotConsumeAllAssets`. -/
theorem two_assets_filter_counterexample :
    convert cctx0 progTwoAssetsDefinite = .error .FilterDoesNotConsumeAllAssets ∧
    convert cctx0 progTwoAssetsDefinite ≠ .error .TooManyAssets := by
  have h1 : convert cctx0 progTwoAssetsDefinite =
      .error .FilterDoesNotConsumeAllAssets := by rfl
  refine ⟨h1, ?_⟩
  rw [h1]
  simp

/-- C6 as amended: a command is produced only when the reserved-asset set
contains exactly one asset; and on either path, when the preceding grammar
steps succeed (fee-purchase with a fungible fee, a deposit instruction with
a resolvable beneficiary) and the deposit filter covers the reserved
assets, an empty reserved-asset set is rejected with `NoReserveAssets` and
one of two or more assets with `TooManyAssets`. -/
theorem single_asset_invariant :
    (∀ (ctx : ConverterCtx) (insts : List Instruction) (msg : Message),
      convert ctx insts = .ok msg →
      ∃ assets tail,
        (insts = Instruction.withdrawAsset assets :: tail ∨
         insts = Instruction.reserveAssetDeposited assets :: tail) ∧
        assets.length = 1) ∧
    (∀ (ctx : ConverterCtx) (floc : Location) (fa w : Nat) (filt : AssetFilter)
        (ben : Location) (r t : Nat), resolveRecipient ctx ben = some r →
      send_tokens_message ctx
          [Instruction.withdrawAsset [],
           Instruction.buyExecution ⟨floc, .fungible fa⟩ w,
           Instruction.depositAsset filt ben, Instruction.setTopic t] =
        .error .NoReserveAssets) ∧
    (∀ (ctx : ConverterCtx) (floc : Location) (fa w : Nat) (filt : AssetFilter)
        (ben : Location) (r t : Nat), resolveRecipient ctx ben = some r →
      send_native_tokens_message ctx
          [Instruction.reserveAssetDeposited [],
           Instruction.buyExecution ⟨floc, .fungible fa⟩ w,
           Instruction.depositAsset filt ben, Instruction.setTopic t] =
        .error .NoReserveAssets) ∧
    (∀ (ctx : ConverterCtx) (assets : List Asset) (floc : Location) (fa w : Nat)
        (filt : AssetFilter) (ben : Location) (r t : Nat),
      2 ≤ assets.length → resolveRecipient ctx ben = some r →
      (∀ a ∈ assets, filt.matches a = true) →
      send_tokens_message ctx
          [Instruction.withdrawAsset assets,
           Instruction.buyExecution ⟨floc, .fungible fa⟩ w,
           Instruction.depositAsset filt ben, Instruction.setTopic t] =
        .error .TooManyAssets) ∧
    (∀ (ctx : ConverterCtx) (assets : List Asset) (floc : Location) (fa w : Nat)
        (filt : AssetFilter) (ben : Location) (r t : Nat),
      2 ≤ assets.length → resolveRecipient ctx ben = some r →
      (∀ a ∈ assets, filt.matches a = true) →
      send_native_tokens_message ctx
          [Instruction.reserveAssetDeposited assets,
           Instruction.buyExecution ⟨floc, .fungible fa⟩ w,
           Instruction.depositAsset filt ben, Instruction.setTopic t] =
        .error .TooManyAssets) := by
  refine ⟨?_, ?_, ?_, ?_, ?_⟩
  · intro ctx insts msg hok
    rcases convert_ok_inv ctx insts msg hok with ⟨a, t, heq, hs⟩ | ⟨a, t, heq, hs⟩
    · obtain ⟨assets, tail, _, _, _, _, _, hshape, hlen, _, _⟩ :=
        send_tokens_message_ok_inv ctx insts msg [] hs
      exact ⟨assets, tail, Or.inl hshape, hlen⟩
    · obtain ⟨assets, tail, _, _, _, _, _, hshape, hlen, _, _⟩ :=
        send_native_tokens_message_ok_inv ctx insts msg [] hs
      exact ⟨assets, tail, Or.inr hshape, hlen⟩
  · intro ctx floc fa w filt ben r t hr
    simp [send_tokens_message, skipClearOrigin, skipExpectAsset, hr]
  · intro ctx floc fa w filt ben r t hr
    simp [send_native_tokens_message, skipClearOrigin, hr]
  · intro ctx assets floc fa w filt ben r t hlen hr hmatch
    have h0 : ¬assets.length = 0 := by omega
    have h1 : ¬assets.length = 1 := by omega
    have hany : (assets.any fun asset => !(filt.matches asset)) = false := by
      rw [List.any_eq_false]
      intro a ha
      simp [hmatch a ha]
    simp [send_tokens_message, skipClearOrigin, skipExpectAsset, hr, h0, h1, hany]
  · intro ctx assets floc fa w filt ben r t hlen hr hmatch
    have h0 : ¬assets.length = 0 := by omega
    have h1 : ¬assets.length = 1 := by omega
    have hany : (assets.any fun asset => !(filt.matches asset)) = false := by
      rw [List.any_eq_false]
      intro a ha
      simp [hmatch a ha]
    simp [send_native_tokens_message, skipClearOrigin, hr, h0, h1, hany]

/-- Witness for C6 at concrete inputs: the empty reserved-asset program is
rejected with `NoReserveAssets`, the two-asset program under the wildcard
filter with `TooManyAssets`, and the successful withdraw fixture has
exactly one reserved asset. -/
theorem single_asset_invariant_witness :
    send_tokens_message cctx0 progZeroAssets = .error .NoReserveAssets ∧
    send_tokens_message cctx0 progTwoAssetsWild = .error .TooManyAssets ∧
    (∃ assets tail,
      (progWithdrawHappy = Instruction.withdrawAsset assets :: tail ∨
       progWithdrawHappy = Instruction.reserveAssetDeposited assets :: tail) ∧
      assets.length = 1) :=
  ⟨single_asset_invariant.2.1 cctx0 ⟨1, []⟩ 10 0 .wild benLoc 205 9 (by rfl),
   single_asset_invariant.2.2.2.1 cctx0 [wethAsset, dotAsset] ⟨1, []⟩ 10 0
     .wild benLoc 205 9 (by decide) (by rfl) (by decide),
   single_asset_invariant.1 cctx0 progWithdrawHappy msgWithdrawVal (by rfl)⟩

/-- C7: a zero fungible transfer amount is rejected.  A successful `convert`
only ever produces commands whose amount is strictly positive; and on
either path, a single reserved asset of amount 0 in an otherwise valid
program is rejected with `ZeroAssetTransfer`. -/
theorem zero_amount_rejection :
    (∀ (ctx : ConverterCtx) (insts : List Instruction) (msg : Message),
      convert ctx insts = .ok msg → ∀ c ∈ msg.commands, 0 < c.amount) ∧
    (∀ (ctx : ConverterCtx) (net : Option NetworkId) (key : Nat)
        (floc : Location) (fa w : Nat) (filt : AssetFilter) (ben : Location)
        (r t : Nat),
      networkMatches ctx net = true → resolveRecipient ctx ben = some r →
      filt.matches ⟨⟨0, [Junction.accountKey20 net key]⟩, .fungible 0⟩ = true →
      send_tokens_message ctx
          [Instruction.withdrawAsset [⟨⟨0, [Junction.accountKey20 net key]⟩, .fungible 0⟩],
           Instruction.buyExecution ⟨floc, .fungible fa⟩ w,
           Instruction.depositAsset filt ben, Instruction.setTopic t] =
        .error .ZeroAssetTransfer) ∧
    (∀ (ctx : ConverterCtx) (aloc : Location) (floc : Location) (fa w : Nat)
        (filt : AssetFilter) (ben : Location) (r t : Nat),
      resolveRecipient ctx ben = some r →
      filt.matches ⟨aloc, .fungible 0⟩ = true →
      send_native_tokens_message ctx
          [Instruction.reserveAssetDeposited [⟨aloc, .fungible 0⟩],
           Instruction.buyExecution ⟨floc, .fungible fa⟩ w,
           Instruction.depositAsset filt ben, Instruction.setTopic t] =
        .error .ZeroAssetTransfer) := by
  refine ⟨?_, ?_, ?_⟩
  · intro ctx insts msg hok c hc
    rcases convert_ok_inv ctx insts msg hok with ⟨a, t, heq, hs⟩ | ⟨a, t, heq, hs⟩
    · obtain ⟨_, _, _, _, amount, _, _, _, _, hpos, hmsg⟩ :=
        send_tokens_message_ok_inv ctx insts msg [] hs
      rw [hmsg] at hc
      simp only [List.mem_singleton] at hc
      rw [hc]
      exact hpos
    · obtain ⟨_, _, _, _, amount, _, _, _, _, hpos, hmsg⟩ :=
        send_native_tokens_message_ok_inv ctx insts msg [] hs
      rw [hmsg] at hc
      simp only [List.mem_singleton] at hc
      rw [hc]
      exact hpos
  · intro ctx net key floc fa w filt ben r t hnet hr hf
    simp [send_tokens_message, skipClearOrigin, skipExpectAsset, hr, hf, hnet]
  · intro ctx aloc floc fa w filt ben r t hr hf
    simp [send_native_tokens_message, skipClearOrigin, hr, hf]

/-- Witness for C7 at concrete inputs: amount-0 programs on both paths are
rejected with `ZeroAssetTransfer`. -/
theorem zero_amount_rejection_witness :
    send_tokens_message cctx0 progZeroAmount = .error .ZeroAssetTransfer ∧
    send_native_tokens_message cctx0 progZeroAmountNative =
      .error .ZeroAssetTransfer :=
  ⟨zero_amount_rejection.2.1 cctx0 none 11 ⟨1, []⟩ 10 0 .wild benLoc 205 9
     (by rfl) (by rfl) (by rfl),
   zero_amount_rejection.2.2 cctx0 nativeLoc ⟨1, []⟩ 10 0 .wild benLoc 205 9
     (by rfl) (by rfl)⟩

/-- Counterexample to C2: a program containing an `ExpectAsset` instruction
is not rejected by the pre-scan — it passes it and validates successfully,
because `ensure!(result.is_err(), NotApplicable)` lets a program through
exactly when the short-circuit scan found an `ExpectAsset` (the V2 marker),
and returns `NotApplicable` otherwise. -/
theorem prescan_expect_asset_counterexample :
    prescanExpectAsset progWithdrawExpect = .error () ∧
    validate ectx0 (NetworkId.ethereum 1) 0 (some usrc0) (some [])
        (some progWithdrawExpect) = .ok (([9], 9), (⟨1, []⟩, 3)) ∧
    validate ectx0 (NetworkId.ethereum 1) 0 (some usrc0) (some [])
        (some progWithdrawExpect) ≠ .error .NotApplicable := by
  have h1 : validate ectx0 (NetworkId.ethereum 1) 0 (some usrc0) (some [])
      (some progWithdrawExpect) = .ok (([9], 9), (⟨1, []⟩, 3)) := by rfl
  refine ⟨by rfl, h1, ?_⟩
  rw [h1]
  simp

/-- C2 as amended: the pre-scan's polarity is inverted with respect to the
claim — for every outbound program containing no expect-asset instruction
anywhere in its sequence, once the network/destination/source/agent checks
have passed, `validate` returns `NotApplicable` before grammar matching
begins (the result does not depend on the matcher's or the queue's
collaborators); only a program containing an expect-asset instruction
proceeds to matching. -/
theorem validate_no_expect_asset_not_applicable (ctx : ExporterCtx)
    (channel : Nat) (rnet : NetworkId) (pid agent : Nat)
    (insts : List Instruction)
    (hrelay : globalConsensusOf ctx.universal_location = some rnet)
    (hagent : ctx.agent_of ⟨1, [Junction.parachain pid]⟩ = some agent)
    (hscan : prescanExpectAsset insts = .ok ()) :
    validate ctx ctx.ethereum_network channel
        (some (Junction.globalConsensus rnet :: [Junction.parachain pid]))
        (some []) (some insts) = .error .NotApplicable := by
  simp [validate, validateFull, splitGlobal, hrelay, hagent, hscan]

/-- Witness for C2 (amended) at a concrete input: the well-formed withdraw
program without any `ExpectAsset` is rejected with `NotApplicable`. -/
theorem validate_no_expect_asset_witness :
    validate ectx0 (NetworkId.ethereum 1) 0 (some usrc0) (some [])
        (some progWithdrawHappy) = .error .NotApplicable :=
  validate_no_expect_asset_not_applicable ectx0 0 NetworkId.polkadot 1000 42
    progWithdrawHappy (by rfl) (by rfl) (by rfl)

/-- Counterexample to C8: a ticket the queue refuses to deliver — as it
does for a reused or already-delivered ticket — is rejected with
`Transport("other transport error")`, not with `NotApplicable`; only an
undecodable ticket maps to `NotApplicable`. -/
theorem deliver_reuse_counterexample :
    deliver decodeAlways queueRejectAll ([0], 0) =
      .error (.Transport "other transport error") ∧
    deliver decodeAlways queueRejectAll ([0], 0) ≠ .error .NotApplicable := by
  have h1 : deliver decodeAlways queueRejectAll ([0], 0) =
      .error (.Transport "other transport error") := by rfl
  refine ⟨h1, ?_⟩
  rw [h1]
  simp

/-- C8 as amended: `deliver` never silently ignores a failure — an
undecodable ticket is rejected with `NotApplicable`, a ticket the queue
refuses (reuse / double delivery) with `Transport("other transport
error")`, and a successful delivery returns the queue's transport-visible
message id. -/
theorem deliver_error_mapping {Q : Type} (ticket_decode : List Nat → Option Q)
    (queue_deliver : Q → Option Nat) (blob : List Nat × Nat) :
    (ticket_decode blob.1 = none →
      deliver ticket_decode queue_deliver blob = .error .NotApplicable) ∧
    (∀ t, ticket_decode blob.1 = some t → queue_deliver t = none →
      deliver ticket_decode queue_deliver blob =
        .error (.Transport "other transport error")) ∧
    (∀ t mid, ticket_decode blob.1 = some t → queue_deliver t = some mid →
      deliver ticket_decode queue_deliver blob = .ok mid) := by
  refine ⟨?_, ?_, ?_⟩ <;> intros <;> simp [deliver, *]

/-- Witness for C8 (amended) at concrete inputs: all three outcomes are
realised. -/
theorem deliver_error_mapping_witness :
    deliver decodeNever queueAcceptAll ([0], 0) = .error .NotApplicable ∧
    deliver decodeAlways queueRejectAll ([0], 0) =
      .error (.Transport "other transport error") ∧
    deliver decodeAlways queueAcceptAll ([0], 0) = .ok 3 :=
  ⟨(deliver_error_mapping decodeNever queueAcceptAll ([0], 0)).1 (by rfl),
   (deliver_error_mapping decodeAlways queueRejectAll ([0], 0)).2.1 () (by rfl) (by rfl),
   (deliver_error_mapping decodeAlways queueAcceptAll ([0], 0)).2.2 () 3 (by rfl) (by rfl)⟩

/-- C9: `validate` leaves the caller-provided `universal_source`,
`destination` and `message` parameters unchanged on every return path,
success or error — the source only ever reads them through `clone()`. -/
theorem validate_preserves_params (ctx : ExporterCtx) (network : NetworkId)
    (channel : Nat) (universal_source destination : Option (List Junction))
    (message : Option (List Instruction)) :
    (validateFull ctx network channel universal_source destination
        message).universal_source = universal_source ∧
    (validateFull ctx network channel universal_source destination
        message).destination = destination ∧
    (validateFull ctx network channel universal_source destination
        message).message = message := by
  unfold validateFull
  dsimp only
  repeat' split
  all_goals exact ⟨rfl, rfl, rfl⟩

/-- Consuming a nonce makes it consumed. -/
theorem PalletState.consume_consumed_self (st : PalletState) (n : Nat) :
    (st.consume n).consumed n = true := by
  simp [PalletState.consume, PalletState.consumed]

/-- Inversion for a successful `submit_body`: every step of the pipeline
succeeded, the committed state is the input state with the envelope's nonce
consumed, and the event carries that nonce and the transport's message id. -/
theorem submit_body_ok_inv (ctx : InboundCtx) (st : PalletState) (o : Bool)
    (m : InMessage) (st' : PalletState) (ev : EventMessageReceived)
    (stm : PalletState)
    (h : submit_body ctx st o m = (.ok (st', ev), stm)) :
    ∃ env m2 v x mid cost,
      o = true ∧ st.halted = false ∧
      ctx.verify m.event_log m.proof = .ok () ∧
      ctx.envelopeTryFrom m.event_log = some env ∧
      ctx.gatewayAddress = env.gateway ∧
      st.consumed env.nonce = false ∧
      ctx.decodePayload env.payload = some m2 ∧
      ctx.decodeVersionedXcm m2.xcm = some v ∧
      ctx.versionedToXcm v = some x ∧
      ctx.sendXcm inboundDest x = .ok (mid, cost) ∧
      st' = st.consume env.nonce ∧ ev = ⟨env.nonce, mid⟩ := by
  unfold submit_body at h
  repeat'
    first
    | (injection h with h1 h2; exact Except.noConfusion h1)
    | split at h
  injection h with h1 h2
  injection h1 with h3
  injection h3 with hS hE
  exact ⟨_, _, _, _, _, _, by simp_all, by simp_all, ‹_›, ‹_›, by simp_all,
    by simp_all, ‹_›, ‹_›, ‹_›, ‹_›, hS.symm, hE.symm⟩

/-- C1: exactly-once forwarding of the inbound pipeline (the transactional
dispatch semantics of the runtime is modelled from the spec in `submit`).
(1) every error outcome leaves the state unchanged and emits no event, so a
failed transport send rolls the nonce-consumed mutation back; (2) a
successful submission decoded an envelope whose previously-unseen nonce is
now consumed and whose program the transport accepted, and emits the
`MessageReceived` event; (3) a submission whose nonce is already consumed
is rejected with `InvalidNonce` and no state mutation; (4) the envelope's
nonce is marked consumed if and only if it was already consumed or the
whole submission (transport acceptance included) succeeded; (5) after a
failure, a resubmission of the same message under a transport that accepts
it succeeds, consuming the nonce. -/
theorem submit_exactly_once (ctx : InboundCtx) (st : PalletState)
    (origin_signed : Bool) (msg : InMessage) :
    (∀ e, (submit ctx st origin_signed msg).1 = .error e →
      (submit ctx st origin_signed msg).2.1 = st ∧
      (submit ctx st origin_signed msg).2.2 = []) ∧
    ((submit ctx st origin_signed msg).1 = .ok () →
      ∃ env m2 v x mid cost,
        ctx.envelopeTryFrom msg.event_log = some env ∧
        st.consumed env.nonce = false ∧
        (submit ctx st origin_signed msg).2.1.consumed env.nonce = true ∧
        ctx.decodePayload env.payload = some m2 ∧
        ctx.decodeVersionedXcm m2.xcm = some v ∧
        ctx.versionedToXcm v = some x ∧
        ctx.sendXcm inboundDest x = .ok (mid, cost) ∧
        (submit ctx st origin_signed msg).2.2 = [⟨env.nonce, mid⟩]) ∧
    (∀ env, origin_signed = true → st.halted = false →
      ctx.verify msg.event_log msg.proof = .ok () →
      ctx.envelopeTryFrom msg.event_log = some env →
      ctx.gatewayAddress = env.gateway →
      st.consumed env.nonce = true →
      submit ctx st origin_signed msg = (.error .InvalidNonce, st, [])) ∧
    (∀ env, ctx.envelopeTryFrom msg.event_log = some env →
      ((submit ctx st origin_signed msg).2.1.consumed env.nonce = true ↔
        (st.consumed env.nonce = true ∨
          (submit ctx st origin_signed msg).1 = .ok ()))) ∧
    (∀ (f : Location → Nat → Except XcmpSendError (Nat × Nat)) env m2 v x mid
        cost,
      origin_signed = true → st.halted = false →
      ctx.verify msg.event_log msg.proof = .ok () →
      ctx.envelopeTryFrom msg.event_log = some env →
      ctx.gatewayAddress = env.gateway →
      st.consumed env.nonce = false →
      ctx.decodePayload env.payload = some m2 →
      ctx.decodeVersionedXcm m2.xcm = some v →
      ctx.versionedToXcm v = some x →
      f inboundDest x = .ok (mid, cost) →
      submit { ctx with sendXcm := f } st origin_signed msg =
        (.ok (), st.consume env.nonce, [⟨env.nonce, mid⟩])) := by
  refine ⟨?_, ?_, ?_, ?_, ?_⟩
  · intro e he
    unfold submit at he ⊢
    rcases hb : submit_body ctx st origin_signed msg with ⟨r, s2⟩
    rw [hb] at he
    cases r with
    | ok v =>
      rcases v with ⟨st', ev⟩
      exact Except.noConfusion he
    | error e2 => exact ⟨rfl, rfl⟩
  · intro hok
    unfold submit at hok ⊢
    rcases hb : submit_body ctx st origin_signed msg with ⟨r, s2⟩
    rw [hb] at hok
    cases r with
    | error e2 => exact Except.noConfusion hok
    | ok v =>
      rcases v with ⟨st', ev⟩
      obtain ⟨env, m2, v, x, mid, cost, _, _, hver, henv, hgw, hcons, hdp, hdv,
        hvx, hsend, hst, hev⟩ :=
        submit_body_ok_inv ctx st origin_signed msg st' ev s2 hb
      subst hst hev
      exact ⟨env, m2, v, x, mid, cost, henv, hcons,
        PalletState.consume_consumed_self st env.nonce, hdp, hdv, hvx, hsend,
        rfl⟩
  · intro env h1 h2 hver henv hgw hcons
    simp [submit, submit_body, h1, h2, hver, henv, hgw, hcons]
  · intro env henv
    unfold submit
    rcases hb : submit_body ctx st origin_signed msg with ⟨r, s2⟩
    cases r with
    | error e2 => simp
    | ok v =>
      rcases v with ⟨st', ev⟩
      obtain ⟨env2, m2, v2, x, mid, cost, _, _, hver, henv2, hgw, hcons, hdp,
        hdv, hvx, hsend, hst, hev⟩ :=
        submit_body_ok_inv ctx st origin_signed msg st' ev s2 hb
      have henveq : env2 = env := by rw [henv2] at henv; injection henv
      subst henveq hst
      simp [PalletState.consume_consumed_self]
  · intro f env m2 v x mid cost h1 h2 hver henv hgw hcons hdp hdv hvx hsend
    simp [submit, submit_body, h1, h2, hver, henv, hgw, hcons, hdp, hdv, hvx,
      hsend]

/-- Witness for C1 at concrete inputs: a transport failure leaves the state
unchanged, an already-consumed nonce is rejected with `InvalidNonce`
without mutation, and resubmitting the failed message under an accepting
transport succeeds and consumes the nonce. -/
theorem submit_exactly_once_witness :
    (submit ictxSendFail ist0 true imsg0).2.1 = ist0 ∧
    (submit ictxSendFail ist0 true imsg0).2.2 = [] ∧
    submit ictx0 istConsumed true imsg0 = (.error .InvalidNonce, istConsumed, []) ∧
    submit { ictxSendFail with sendXcm := fun _ _ => .ok (9, 0) } ist0 true
        imsg0 = (.ok (), ist0.consume 5, [⟨5, 9⟩]) :=
  ⟨((submit_exactly_once ictxSendFail ist0 true imsg0).1
      (.Send .Transport) (by rfl)).1,
   ((submit_exactly_once ictxSendFail ist0 true imsg0).1
      (.Send .Transport) (by rfl)).2,
   (submit_exactly_once ictx0 istConsumed true imsg0).2.2.1 env0 rfl rfl
     (by rfl) (by rfl) (by rfl) (by decide),
   (submit_exactly_once ictxSendFail ist0 true imsg0).2.2.2.2
     (fun _ _ => .ok (9, 0)) env0 ⟨4, [3]⟩ 1 2 9 0 rfl rfl (by rfl) (by rfl)
     (by rfl) (by decide) (by rfl) (by rfl) (by rfl) (by rfl)⟩

/-- C10: no execution path of `submit` produces the declared error variants
`MaxNonceReached`, `InvalidChannel` or `InvalidAccountConversion`, even
though they appear in the pallet's error enum. -/
theorem submit_never_unused_errors (ctx : InboundCtx) (st : PalletState)
    (origin_signed : Bool) (msg : InMessage) :
    (submit ctx st origin_signed msg).1 ≠ .error .MaxNonceReached ∧
    (submit ctx st origin_signed msg).1 ≠ .error .InvalidChannel ∧
    (submit ctx st origin_signed msg).1 ≠ .error .InvalidAccountConversion := by
  have hbody : ∀ e, (submit_body ctx st origin_signed msg).1 = .error e →
      e ≠ .MaxNonceReached ∧ e ≠ .InvalidChannel ∧
      e ≠ .InvalidAccountConversion := by
    intro e he
    unfold submit_body at he
    repeat' split at he
    all_goals
      first
      | exact Except.noConfusion he
      | (injection he with h1; subst h1; exact ⟨by simp, by simp, by simp⟩)
  unfold submit
  rcases hb : submit_body ctx st origin_signed msg with ⟨r, s2⟩
  cases r with
  | ok v =>
    rcases v with ⟨st', ev⟩
    refine ⟨?_, ?_, ?_⟩ <;> simp
  | error e =>
    have h3 := hbody e (by rw [hb])
    refine ⟨?_, ?_, ?_⟩ <;> intro hcontra <;> injection hcontra with h4
    · exact h3.1 h4
    · exact h3.2.1 h4
    · exact h3.2.2 h4

/-- Witness for C10 at a concrete input. -/
theorem submit_never_unused_errors_witness :
    (submit ictx0 ist0 true imsg0).1 ≠ .error .MaxNonceReached ∧
    (submit ictx0 ist0 true imsg0).1 ≠ .error .InvalidChannel ∧
    (submit ictx0 ist0 true imsg0).1 ≠ .error .InvalidAccountConversion :=
  submit_never_unused_errors ictx0 ist0 true imsg0

end Snowbridge
